import Mathlib

/-!
# Verification of the partner-survey application core

This file gives a shallow embedding, in Lean 4, of the core logic of the
two Streamlit application variants (`app.py` and `app_v1.py`):

* the Python value model needed by the form engine (truthiness, `str(...)`),
* the template parser's cell handling (`parse_survey_file`),
* the form engine (`should_show_question`, per-type answer serialization,
  required-field validation in `render_partner_mode`),
* the submission reconciler (`submit_survey_responses` of both variants,
  over an explicit relational state), and
* the export transform (`export_all_submissions`).

Each definition is translated from the Python source; comments cite the
file and line ranges it embeds.  Theorems settle the frozen claims about
the specification.
-/

set_option maxHeartbeats 1000000
set_option maxRecDepth 4000

/-! ## Python value model

Values held in the `st.session_state.survey_responses` dict and passed to
`submit_survey_responses`: strings (text/textarea/select/matrix widgets),
integers (the rating slider), `None`, and booleans. -/

/-- A Python value as it can occur as a stored survey answer. -/
inductive PyValue where
  | none
  | str (s : String)
  | int (n : Int)
  | bool (b : Bool)
deriving DecidableEq

/-- Python truthiness (`bool(v)`) on the values of `PyValue`. -/
def pyTruthy : PyValue → Bool
  | .none => false
  | .str s => !(s == "")
  | .int n => !(n == 0)
  | .bool b => b

/-- Python `str(v)` on the values of `PyValue`. -/
def pyStr : PyValue → String
  | .none => "None"
  | .str s => s
  | .int n => Int.repr n
  | .bool b => if b then "True" else "False"

/-! ## Question records

Shape of the question dicts produced by `parse_survey_file`
(`app.py` lines 366-422, `app_v1.py` lines 515-571): the fields `options`,
`minRating`, `maxRating`, `matrixRows`, `matrixCols` default to empty /
1..5 when not attached, and the dependency fields are optional. -/

structure Question where
  id : String
  qtype : String
  question : String
  sectionLabel : String
  required : Bool
  options : List String := []
  minRating : Int := 1
  maxRating : Int := 5
  matrixRows : List String := []
  matrixCols : List String := []
  dependsOn : Option String := Option.none
  dependsOnValue : Option String := Option.none
deriving DecidableEq

/-! ## Form engine: conditional visibility

`should_show_question` (`app.py` lines 434-450, `app_v1.py` lines 583-599).
`'dependsOn' not in question` is `dependsOn = none`;
`depends_on_id not in responses` is a failing dict lookup;
`if depends_on_value:` is Python truthiness of an `Option String`
(`None` and the empty string are both falsy). -/

def should_show_question (q : Question) (responses : List (String × PyValue)) : Bool :=
  match q.dependsOn with
  | Option.none => true
  | Option.some dep =>
    match responses.lookup dep with
    | Option.none => false
    | Option.some cur =>
      match q.dependsOnValue with
      | Option.some v => if v ≠ "" then pyStr cur == v else pyTruthy cur
      | Option.none => pyTruthy cur

/-- The visibility rule exactly as the claim words it: whenever an expected
value is *set* (attached to the question), compare string forms — with no
carve-out for an empty expected value. -/
def should_show_claimed (q : Question) (responses : List (String × PyValue)) : Bool :=
  match q.dependsOn with
  | Option.none => true
  | Option.some dep =>
    match responses.lookup dep with
    | Option.none => false
    | Option.some cur =>
      match q.dependsOnValue with
      | Option.some v => pyStr cur == v
      | Option.none => pyTruthy cur

/-- A question whose dependency carries an empty expected value. -/
def c3Question : Question :=
  { id := "q2", qtype := "text", question := "Dependent question",
    sectionLabel := "General", required := false,
    dependsOn := Option.some "q1", dependsOnValue := Option.some "" }

/-- C3 counterexample: with an expected value that is set but equal to the
empty string and a controlling answer whose string form is also empty, the
claim as stated demands the question be shown (its string form equals the
expected value), but `should_show_question` treats the falsy expected value
as absent and tests truthiness, hiding the question. -/
theorem c3_empty_expected_value_disagrees :
    should_show_claimed c3Question [("q1", PyValue.str "")] = true ∧
    should_show_question c3Question [("q1", PyValue.str "")] = false := by
  constructor <;> rfl

/-- C3 (amended): `should_show_question` returns true iff the question has
no dependency, or the controlling question has an answer and either a
non-empty expected value is set whose string form the answer's string form
equals, or the expected value is absent or empty and the answer is truthy.
In particular it returns false whenever the controlling question has no
answer in the mapping. -/
theorem c3_should_show_cases (q : Question) (responses : List (String × PyValue)) :
    should_show_question q responses = true ↔
      (q.dependsOn = Option.none ∨
        ∃ dep cur, q.dependsOn = Option.some dep ∧
          responses.lookup dep = Option.some cur ∧
          ((∃ v, q.dependsOnValue = Option.some v ∧ v ≠ "" ∧ pyStr cur = v) ∨
            ((q.dependsOnValue = Option.none ∨ q.dependsOnValue = Option.some "") ∧
              pyTruthy cur = true))) := by
  cases hdep : q.dependsOn with
  | none => simp [should_show_question, hdep]
  | some dep =>
    cases hcur : responses.lookup dep with
    | none => simp [should_show_question, hdep, hcur]
    | some cur =>
      cases hval : q.dependsOnValue with
      | none => simp [should_show_question, hdep, hcur, hval]
      | some v =>
        by_cases hv : v = ""
        · subst hv
          simp [should_show_question, hdep, hcur, hval]
        · simp only [should_show_question, hdep, hcur, hval, hv, beq_iff_eq,
            if_true, ne_eq, not_false_eq_true, if_pos]
          constructor
          · intro h
            exact Or.inr ⟨dep, cur, rfl, hcur, Or.inl ⟨v, rfl, hv, h⟩⟩
          · rintro (h | ⟨d, c, hd, hc, h⟩)
            · simp at h
            · cases hd
              rw [hcur] at hc
              cases hc
              rcases h with ⟨w, hw, hne, hs⟩ | ⟨hb, ht⟩
              · cases hw
                exact hs
              · rcases hb with hb | hb
                · simp at hb
                · cases hb
                  exact absurd rfl hv

/-! ## Template parser: the Required cell

`app.py` line 373 / `app_v1.py` line 522:
`str(row.get('Required', 'No')) in ['Yes', 'TRUE', 'True', 'yes', 'true']`.
A cell of `none` models an absent column or a NaN cell (whose `str` form,
`'No'` respectively `'nan'`, is in neither membership list). -/

def required_flag (cell : Option String) : Bool :=
  ["Yes", "TRUE", "True", "yes", "true"].contains (cell.getD "No")

/-- Python `str.lower` (ASCII case folding suffices for the cells at issue). -/
def pyLower (s : String) : String := String.mk (s.toList.map Char.toLower)

/-- The Required rule exactly as the claim words it: case-insensitive
comparison of the raw cell against `yes` and `true`. -/
def required_claimed (cell : Option String) : Bool :=
  let s := pyLower (cell.getD "No")
  s == "yes" || s == "true"

/-- C6 counterexample: the claim says a Required cell of `YES` (compared
case-insensitively) yields `required = true`, but the source performs exact
membership in the list `['Yes', 'TRUE', 'True', 'yes', 'true']`, which does
not contain `YES`, so the parser yields `required = false`. -/
theorem c6_upper_yes_disagrees :
    required_claimed (Option.some "YES") = true ∧
    required_flag (Option.some "YES") = false := by
  constructor <;> rfl

/-- C6 (amended): the required flag is true iff the raw Required cell is
exactly one of the five strings `Yes`, `TRUE`, `True`, `yes`, `true`
(exact, case-sensitive membership; an absent cell defaults to `No` and
yields false). -/
theorem c6_required_exact (cell : Option String) :
    required_flag cell = true ↔
      cell = Option.some "Yes" ∨ cell = Option.some "TRUE" ∨
      cell = Option.some "True" ∨ cell = Option.some "yes" ∨
      cell = Option.some "true" := by
  cases cell with
  | none => simp [required_flag]
  | some s =>
    simp [required_flag]

/-! ## Python string splitting, stripping and joining

`str.split(sep)`, `str.strip()` and `sep.join(...)`, modelled on the
character list underlying a `String`.  `split` keeps empty pieces and
yields `['']` on the empty string; `strip` removes leading and trailing
whitespace. -/

/-- Python `s.split(sep)` on a character list (result is never `[]`). -/
def pySplitChars (sep : Char) : List Char → List (List Char)
  | [] => [[]]
  | c :: rest =>
    match pySplitChars sep rest with
    | [] => [[]]
    | t :: ts => if c = sep then [] :: t :: ts else (c :: t) :: ts

/-- Python `s.split(sep)` on strings. -/
def pySplit (sep : Char) (s : String) : List String :=
  (pySplitChars sep s.toList).map String.mk

/-- Whitespace as stripped by Python `str.strip()` (the ASCII cases). -/
def pyIsSpace (c : Char) : Bool :=
  c == ' ' || c == '\t' || c == '\n' || c == '\r'

/-- Python `s.strip()`. -/
def pyStrip (s : String) : String :=
  String.mk (((s.toList.dropWhile pyIsSpace).reverse.dropWhile pyIsSpace).reverse)

/-- `[tok.strip() for tok in s.split(sep) if tok.strip()]`: split on `sep`,
trim each token, drop the tokens that are empty after trimming. -/
def splitTrim (sep : Char) (s : String) : List String :=
  ((pySplit sep s).map pyStrip).filter (fun t => !(t == ""))

/-! ## Template parser: option and matrix lists

`parse_survey_file`, `app.py` lines 377-414 / `app_v1.py` lines 526-563.
A cell of `none` models a NaN cell (`pd.notna` false); the guard
`pd.notna(cell) and str(cell).strip()` sends blank cells to `[]`. -/

/-- The Options cell handling (`app.py` lines 378-389): separator priority
pipe, then semicolon, then comma (comma is the fallback even when absent). -/
def parse_options (cell : Option String) : List String :=
  match cell with
  | Option.none => []
  | Option.some s =>
    if pyStrip s = "" then []
    else if s.toList.contains '|' then splitTrim '|' s
    else if s.toList.contains ';' then splitTrim ';' s
    else splitTrim ',' s

/-- The MatrixRows / MatrixCols cell handling (`app.py` lines 396-414):
only pipe, then the comma fallback — no semicolon branch. -/
def parse_matrix_list (cell : Option String) : List String :=
  match cell with
  | Option.none => []
  | Option.some s =>
    if pyStrip s = "" then []
    else if s.toList.contains '|' then splitTrim '|' s
    else splitTrim ',' s

/-- First separator of a priority list that occurs in the string. -/
def firstPresent (s : String) : List Char → Option Char
  | [] => Option.none
  | c :: cs => if s.toList.contains c then Option.some c else firstPresent s cs

/-- The list-cell rule exactly as the claim words it, parametrised by a
separator priority list: split on the first separator of the list found in
the cell (falling back to comma), trim tokens, drop empties; the claim
asserts this with priority pipe, semicolon, comma for all three kinds of
list cell. -/
def first_separator_split (seps : List Char) (cell : Option String) : List String :=
  match cell with
  | Option.none => []
  | Option.some s =>
    if pyStrip s = "" then []
    else splitTrim ((firstPresent s seps).getD ',') s

/-- C5 counterexample: on a matrix cell containing a semicolon but no pipe,
the claim demands a semicolon split, but the source's matrix branch knows
only pipe and comma, so the whole cell survives as a single token. -/
theorem c5_matrix_semicolon_disagrees :
    first_separator_split ['|', ';', ','] (Option.some "Ease of use; Features")
      = ["Ease of use", "Features"] ∧
    parse_matrix_list (Option.some "Ease of use; Features")
      = ["Ease of use; Features"] := by
  constructor <;> rfl

/-- C5 (amended): option cells are split on the first separator found in
priority order pipe, semicolon, comma, with tokens trimmed and empty tokens
discarded, and an absent or blank cell yielding an empty list; matrix row
and column cells follow the same rule but with priority order pipe then
comma only (semicolon is not a matrix separator). -/
theorem c5_split_priority (cell : Option String) :
    parse_options cell = first_separator_split ['|', ';', ','] cell ∧
    parse_matrix_list cell = first_separator_split ['|', ','] cell := by
  cases cell with
  | none => exact ⟨rfl, rfl⟩
  | some s =>
    by_cases h0 : pyStrip s = ""
    · simp [parse_options, parse_matrix_list, first_separator_split, h0]
    · by_cases h1 : '|' ∈ s.data
      · simp [parse_options, parse_matrix_list, first_separator_split, firstPresent, h0, h1]
      · by_cases h2 : ';' ∈ s.data
        · by_cases h3 : ',' ∈ s.data <;>
            simp [parse_options, parse_matrix_list, first_separator_split, firstPresent,
              h0, h1, h2, h3]
        · by_cases h3 : ',' ∈ s.data
          · simp [parse_options, parse_matrix_list, first_separator_split, firstPresent,
              h0, h1, h2, h3]
          · simp [parse_options, parse_matrix_list, first_separator_split, firstPresent,
              h0, h1, h2, h3]

/-! ## Form engine: multi-select serialization

`render_question`, multi-select branch (`app.py` lines 479-483 /
`app_v1.py` lines 628-632): stored value is `'|'.join(selected)` (empty
string when nothing is selected); the pre-filled default is recovered by
`existing_value.split('|')` (empty list when the stored value is empty). -/

/-- Python `sep.join(pieces)` on character lists. -/
def joinChars (sep : Char) : List (List Char) → List Char
  | [] => []
  | [s] => s
  | s :: rest => s ++ sep :: joinChars sep rest

/-- `return '|'.join(selected) if selected else ""`. -/
def serialize_multi_select (selected : List String) : String :=
  if selected = [] then ""
  else String.mk (joinChars '|' (selected.map String.toList))

/-- `default = existing_value.split('|') if existing_value else []`. -/
def deserialize_multi_select (v : String) : List String :=
  if v = "" then [] else pySplit '|' v

theorem pySplitChars_ne_nil (sep : Char) (l : List Char) :
    pySplitChars sep l ≠ [] := by
  cases l with
  | nil => simp [pySplitChars]
  | cons c rest =>
    simp only [pySplitChars]
    rcases h : pySplitChars sep rest with _ | ⟨t, ts⟩
    · simp
    · by_cases hc : c = sep <;> simp [hc]

theorem pySplitChars_no_sep (sep : Char) (a : List Char) (h : sep ∉ a) :
    pySplitChars sep a = [a] := by
  induction a with
  | nil => rfl
  | cons c rest ih =>
    have hc : c ≠ sep := fun hcs => h (hcs ▸ List.mem_cons_self c rest)
    have hrest : sep ∉ rest := fun hm => h (List.mem_cons_of_mem c hm)
    simp only [pySplitChars, ih hrest]
    simp [hc]

theorem pySplitChars_append_sep (sep : Char) (a b : List Char) (h : sep ∉ a) :
    pySplitChars sep (a ++ sep :: b) = a :: pySplitChars sep b := by
  induction a with
  | nil =>
    simp only [List.nil_append, pySplitChars]
    rcases hb : pySplitChars sep b with _ | ⟨t, ts⟩
    · exact absurd hb (pySplitChars_ne_nil sep b)
    · simp
  | cons c rest ih =>
    have hc : c ≠ sep := fun hcs => h (hcs ▸ List.mem_cons_self c rest)
    have hrest : sep ∉ rest := fun hm => h (List.mem_cons_of_mem c hm)
    have e := ih hrest
    simp only [List.cons_append, pySplitChars, List.append_eq]
    rw [e]
    simp [hc]

theorem pySplitChars_joinChars (sep : Char) (l : List (List Char))
    (hne : l ≠ []) (h : ∀ s ∈ l, sep ∉ s) :
    pySplitChars sep (joinChars sep l) = l := by
  induction l with
  | nil => exact absurd rfl hne
  | cons s rest ih =>
    cases rest with
    | nil =>
      simp only [joinChars]
      exact pySplitChars_no_sep sep s (h s (List.mem_cons_self s []))
    | cons t ts =>
      have hs : sep ∉ s := h s (List.mem_cons_self s (t :: ts))
      have hrest : ∀ u ∈ t :: ts, sep ∉ u := fun u hu => h u (List.mem_cons_of_mem s hu)
      simp only [joinChars, pySplitChars_append_sep sep s _ hs, ih (by simp) hrest]

theorem joinChars_head_ne_nil (sep : Char) (s : List Char) (rest : List (List Char))
    (hs : s ≠ []) : joinChars sep (s :: rest) ≠ [] := by
  cases rest with
  | nil => simpa [joinChars] using hs
  | cons t ts => simp [joinChars]

/-- C7 counterexample: the selection consisting of the single empty-string
option contains no pipe character, yet serializing gives the empty string,
which deserializes to the empty selection — the original selected set is
not recovered, even order-insensitively. -/
theorem c7_empty_option_breaks_round_trip :
    (∀ s ∈ [("" : String)], s.toList.contains '|' = false) ∧
    serialize_multi_select [""] = "" ∧
    deserialize_multi_select (serialize_multi_select [""]) = [] ∧
    deserialize_multi_select (serialize_multi_select [""]) ≠ [""] := by
  refine ⟨by decide, rfl, rfl, by decide⟩

/-- C7 (amended): for every selection list whose options are non-empty and
pipe-free, serializing (pipe-join, empty selection to empty string) and then
deserializing (pipe-split, empty string to empty list) returns exactly the
original selection — in particular the same set of options. -/
theorem c7_round_trip (selected : List String)
    (h : ∀ s ∈ selected, s ≠ "" ∧ s.toList.contains '|' = false) :
    deserialize_multi_select (serialize_multi_select selected) = selected := by
  cases hsel : selected with
  | nil => rfl
  | cons s rest =>
    rw [hsel] at h
    have hs : s ≠ "" ∧ s.toList.contains '|' = false := h s (List.mem_cons_self s rest)
    have hslist : s.toList ≠ [] := by
      intro hnil
      exact hs.1 (by cases s with | mk data => simpa [String.toList] using congrArg String.mk hnil)
    have hjoin : joinChars '|' ((s :: rest).map String.toList) ≠ [] := by
      simpa using joinChars_head_ne_nil '|' s.toList (rest.map String.toList) hslist
    have hser : serialize_multi_select (s :: rest)
        = String.mk (joinChars '|' ((s :: rest).map String.toList)) := by
      simp [serialize_multi_select]
    rw [hser]
    have hne : String.mk (joinChars '|' ((s :: rest).map String.toList)) ≠ "" := by
      intro hEq
      exact hjoin (congrArg String.toList hEq)
    rw [deserialize_multi_select, if_neg hne]
    have hnosep : ∀ u ∈ (s :: rest).map String.toList, ('|' : Char) ∉ u := by
      intro u hu hmem
      rcases List.mem_map.mp hu with ⟨w, hw, rfl⟩
      have hcontains := (h w hw).2
      rw [List.contains_eq_any_beq] at hcontains
      have htrue : (String.toList w).any (fun x => '|' == x) = true :=
        List.any_eq_true.mpr ⟨'|', hmem, by simp⟩
      rw [htrue] at hcontains
      exact absurd hcontains (by simp)
    rw [pySplit]
    have htl : (String.mk (joinChars '|' ((s :: rest).map String.toList))).toList
        = joinChars '|' ((s :: rest).map String.toList) := rfl
    rw [htl, pySplitChars_joinChars '|' _ (by simp) hnosep]
    rw [List.map_map]
    have : (String.mk ∘ String.toList) = id := by
      funext w
      cases w with | mk data => rfl
    rw [this, List.map_id]

/-! ## Form engine: required-field validation

The submit-button handler of `render_partner_mode` (`app.py` lines 829-840 /
`app_v1.py` lines 1032-1043): a question is collected as missing when it is
required, currently shown, and its stored answer is falsy; submission
proceeds only when the collected list is empty, and the error message joins
the display text of the first three collected questions. -/

/-- Python `responses.get(key)` (dict lookup defaulting to `None`). -/
def dictGet (responses : List (String × PyValue)) (k : String) : PyValue :=
  (responses.lookup k).getD PyValue.none

/-- Python `sep.join(pieces)` for a string separator. -/
def pyJoin (sep : String) : List String → String
  | [] => ""
  | [s] => s
  | s :: rest => s ++ sep ++ pyJoin sep rest

/-- The `missing_required` list collected by the validation loop. -/
def missing_required (questions : List Question)
    (responses : List (String × PyValue)) : List String :=
  (questions.filter (fun q => q.required && should_show_question q responses &&
    !(pyTruthy (dictGet responses q.id)))).map (fun q => q.question)

/-- `if missing_required:` — submission is blocked iff the list is non-empty. -/
def submit_blocked (questions : List Question)
    (responses : List (String × PyValue)) : Bool :=
  !(missing_required questions responses).isEmpty

/-- The error text shown when blocked
(`f"... Missing: {', '.join(missing_required[:3])}"`, emoji prefix elided). -/
def block_message (questions : List Question)
    (responses : List (String × PyValue)) : String :=
  "Please answer all required questions. Missing: " ++
    pyJoin ", " ((missing_required questions responses).take 3)

/-- The block message exactly as the claim words it: it lists the display
text of *all* missing questions, with no truncation. -/
def block_message_claimed (questions : List Question)
    (responses : List (String × PyValue)) : String :=
  "Please answer all required questions. Missing: " ++
    pyJoin ", " (missing_required questions responses)

/-- Four required text questions with no dependencies and no answers. -/
def c4Questions : List Question :=
  [{ id := "q1", qtype := "text", question := "A", sectionLabel := "General", required := true },
   { id := "q2", qtype := "text", question := "B", sectionLabel := "General", required := true },
   { id := "q3", qtype := "text", question := "C", sectionLabel := "General", required := true },
   { id := "q4", qtype := "text", question := "D", sectionLabel := "General", required := true }]

/-- C4 counterexample: with four missing required questions the claim says
the block message lists all four display texts, but the source slices the
list to its first three (`missing_required[:3]`), so the shown message
omits the fourth. -/
theorem c4_truncated_message_disagrees :
    missing_required c4Questions [] = ["A", "B", "C", "D"] ∧
    block_message c4Questions []
      = "Please answer all required questions. Missing: A, B, C" ∧
    block_message c4Questions [] ≠ block_message_claimed c4Questions [] := by
  refine ⟨rfl, rfl, by decide⟩

/-- C4 (amended): a question's display text is collected as missing iff the
question is required, currently shown per `should_show_question`, and its
stored answer is absent or falsy; submission is blocked exactly when some
question is missing; and the block message lists the display text of at
most the first three missing questions. -/
theorem c4_missing_validation (questions : List Question)
    (responses : List (String × PyValue)) :
    (∀ t, t ∈ missing_required questions responses ↔
        ∃ q ∈ questions, q.question = t ∧ q.required = true ∧
          should_show_question q responses = true ∧
          pyTruthy (dictGet responses q.id) = false) ∧
    (submit_blocked questions responses = true ↔
        missing_required questions responses ≠ []) ∧
    block_message questions responses =
      "Please answer all required questions. Missing: " ++
        pyJoin ", " ((missing_required questions responses).take 3) := by
  refine ⟨?_, ?_, rfl⟩
  · intro t
    simp only [missing_required, List.mem_map, List.mem_filter, Bool.and_eq_true,
      Bool.not_eq_true']
    constructor
    · rintro ⟨q, ⟨hq, ⟨hreq, hshow⟩, hfalsy⟩, ht⟩
      exact ⟨q, hq, ht, hreq, hshow, hfalsy⟩
    · rintro ⟨q, hq, ht, hreq, hshow, hfalsy⟩
      exact ⟨q, ⟨hq, ⟨hreq, hshow⟩, hfalsy⟩, ht⟩
  · simp [submit_blocked, List.isEmpty_iff]

/-! ## Submission reconciler: which answers become response rows

The response-insertion loop of `submit_survey_responses`
(`app.py` lines 262-274 / `app_v1.py` lines 392-409): a `(question_id,
value)` pair produces an insert iff the value is neither `None` nor the
empty string; the stored value is `str(value)`, and question text / type /
section are denormalized from the template snapshot, falling back to the
raw id and `'unknown'` when the id is not in the template. -/

structure ResponseRow where
  submission_id : Nat
  question_id : String
  question_text : String
  response_value : String
  response_type : String
  section_name : Option String
deriving DecidableEq

def responses_to_insert (template_questions : List Question) (submission_id : Nat)
    (responses : List (String × PyValue)) : List ResponseRow :=
  responses.filterMap (fun p =>
    if p.2 ≠ PyValue.none ∧ p.2 ≠ PyValue.str "" then
      let qd := template_questions.find? (fun q => q.id == p.1)
      Option.some
        { submission_id := submission_id,
          question_id := p.1,
          question_text := match qd with
            | Option.some q => q.question
            | Option.none => p.1,
          response_value := pyStr p.2,
          response_type := match qd with
            | Option.some q => q.qtype
            | Option.none => "unknown",
          section_name := match qd with
            | Option.some q => Option.some q.sectionLabel
            | Option.none => Option.none }
    else Option.none)

theorem toDigitsCore_length_le (b fuel : Nat) :
    ∀ (n : Nat) (ds : List Char), ds.length ≤ (Nat.toDigitsCore b fuel n ds).length := by
  induction fuel with
  | zero => intro n ds; simp [Nat.toDigitsCore]
  | succ fuel ih =>
    intro n ds
    simp only [Nat.toDigitsCore]
    split
    · simp
    · exact le_trans (by simp) (ih (n / b) (Nat.digitChar (n % b) :: ds))

theorem toDigits_ne_nil (b n : Nat) : Nat.toDigits b n ≠ [] := by
  rw [Nat.toDigits]
  simp only [Nat.toDigitsCore]
  split
  · simp
  · intro h
    have hle := toDigitsCore_length_le b n (n / b) [Nat.digitChar (n % b)]
    rw [h] at hle
    simp at hle

theorem natRepr_ne_empty (n : Nat) : Nat.repr n ≠ "" := by
  intro h
  exact toDigits_ne_nil 10 n (congrArg String.data h)

theorem intRepr_ne_empty (n : Int) : Int.repr n ≠ "" := by
  cases n with
  | ofNat m => exact natRepr_ne_empty m
  | negSucc m =>
    intro h
    have hdata := congrArg String.data h
    simp [Int.repr, String.data_append] at hdata

theorem pyStr_ne_empty (v : PyValue) (h1 : v ≠ PyValue.none) (h2 : v ≠ PyValue.str "") :
    pyStr v ≠ "" := by
  cases v with
  | none => exact absurd rfl h1
  | str s =>
    intro h
    rw [pyStr] at h
    exact h2 (by rw [h])
  | int n => exact intRepr_ne_empty n
  | bool b => cases b <;> simp [pyStr]

/-- C9: the response-insertion loop inserts one row per `(question id,
value)` pair exactly when the value is neither `None` nor the empty string
(the stored value being `str(value)`), and consequently every persisted
response row carries a non-empty answer value. -/
theorem c9_no_empty_response_rows (template_questions : List Question)
    (submission_id : Nat) (responses : List (String × PyValue)) :
    ((responses_to_insert template_questions submission_id responses).map
        (fun r => (r.question_id, r.response_value))
      = (responses.filter
          (fun p => decide (p.2 ≠ PyValue.none ∧ p.2 ≠ PyValue.str ""))).map
          (fun p => (p.1, pyStr p.2))) ∧
    ∀ r ∈ responses_to_insert template_questions submission_id responses,
      r.response_value ≠ "" := by
  constructor
  · induction responses with
    | nil => rfl
    | cons p ps ih =>
      by_cases hp : p.2 ≠ PyValue.none ∧ p.2 ≠ PyValue.str "" <;>
        simp [responses_to_insert, List.filterMap_cons, hp] <;>
        simpa [responses_to_insert] using ih
  · intro r hr
    rcases List.mem_filterMap.mp hr with ⟨p, hp, hf⟩
    by_cases hcond : p.2 ≠ PyValue.none ∧ p.2 ≠ PyValue.str ""
    · rw [if_pos hcond] at hf
      cases hf
      exact pyStr_ne_empty p.2 hcond.1 hcond.2
    · rw [if_neg hcond] at hf
      cases hf

/-! ## Form engine: matrix serialization

The matrix branch of `render_question` (`app.py` lines 491-592 /
`app_v1.py` lines 640-751).  Empty row or column lists short-circuit to
`""` with a warning; otherwise the row loop writes
`matrix_responses[row_name] = col_name` for every selected radio cell
(visiting columns left to right) and the branch returns
`json.dumps(matrix_responses) if matrix_responses else ""`. -/

def lbrace : Char := Char.ofNat 123

def rbrace : Char := Char.ofNat 125

/-- `json.dumps` escaping of one character inside a JSON string. -/
def jsonEscapeChar (c : Char) : List Char :=
  if c = '"' then ['\\', '"'] else if c = '\\' then ['\\', '\\'] else [c]

/-- A JSON string literal for `s`, as characters. -/
def jsonQuoteChars (s : String) : List Char :=
  '"' :: (s.toList.map jsonEscapeChar).flatten ++ ['"']

/-- One `"key": "value"` entry of a JSON object. -/
def jsonEntryChars (p : String × String) : List Char :=
  jsonQuoteChars p.1 ++ ':' :: ' ' :: jsonQuoteChars p.2

/-- Join character-list pieces with a character-list separator. -/
def joinListChars (sep : List Char) : List (List Char) → List Char
  | [] => []
  | [e] => e
  | e :: rest => e ++ sep ++ joinListChars sep rest

/-- `json.dumps` on a string-to-string dict (insertion-ordered entries,
default `", "` item separator). -/
def json_dumps (d : List (String × String)) : String :=
  String.mk (lbrace :: (joinListChars [',', ' '] (d.map jsonEntryChars) ++ [rbrace]))

/-- The column scan of one matrix row: every selected cell assigns
`matrix_responses[row] = col`, so the last selected column wins. -/
def chooseCol (cols : List String) (sel : String → String → Bool) (r : String) :
    Option String :=
  cols.foldl (fun acc c => if sel r c then Option.some c else acc) Option.none

/-- Python dict assignment `d[k] = v` on an insertion-ordered assoc list. -/
def dictSet (d : List (String × String)) (k v : String) : List (String × String) :=
  if d.any (fun p => p.1 == k) then d.map (fun p => if p.1 == k then (k, v) else p)
  else d ++ [(k, v)]

/-- The `matrix_responses` dict accumulated by the row loop
(`app.py` lines 550-584). -/
def matrix_responses (rows cols : List String) (sel : String → String → Bool) :
    List (String × String) :=
  rows.foldl (fun acc r =>
    match chooseCol cols sel r with
    | Option.some c => dictSet acc r c
    | Option.none => acc) []

/-- The matrix branch's return value. -/
def serialize_matrix (rows cols : List String) (sel : String → String → Bool) : String :=
  if rows.isEmpty || cols.isEmpty then ""
  else if (matrix_responses rows cols sel).isEmpty then ""
  else json_dumps (matrix_responses rows cols sel)

theorem foldl_select_eq (r : String) (sel : String → String → Bool) :
    ∀ (cols : List String) (acc : Option String),
      List.foldl (fun a c => if sel r c then Option.some c else a) acc cols
        = ((cols.filter (fun c => sel r c)).getLast?).elim acc Option.some := by
  intro cols
  induction cols with
  | nil => intro acc; simp
  | cons c cs ih =>
    intro acc
    by_cases h : sel r c
    · simp only [List.foldl_cons, if_pos h, List.filter_cons, h, ite_true, ih]
      cases hl : cs.filter (fun c => sel r c) with
      | nil => simp
      | cons x xs =>
        rw [List.getLast?_cons_cons]
        cases hgl : (x :: xs).getLast? with
        | none => simp at hgl
        | some y => simp
    · simp only [List.foldl_cons, if_neg h, List.filter_cons, h, ite_false, ih]
      simp [h]

theorem chooseCol_eq_none_iff (cols : List String) (sel : String → String → Bool)
    (r : String) :
    chooseCol cols sel r = Option.none ↔ ∀ c ∈ cols, sel r c = false := by
  rw [chooseCol, foldl_select_eq]
  cases hf : cols.filter (fun c => sel r c) with
  | nil =>
    simp only [List.getLast?_nil, Option.elim]
    rw [List.filter_eq_nil_iff] at hf
    simpa using hf
  | cons x xs =>
    cases hgl : (x :: xs).getLast? with
    | none => simp at hgl
    | some y =>
      simp only [hgl, Option.elim]
      constructor
      · intro h; simp at h
      · intro h
        have hx : x ∈ cols.filter (fun c => sel r c) := hf ▸ List.mem_cons_self x xs
        have := List.mem_filter.mp hx
        rw [h x this.1] at this
        simp at this

theorem chooseCol_iff (cols : List String) (sel : String → String → Bool) (r : String)
    (hone : (cols.filter (fun c => sel r c)).length ≤ 1) (c : String) :
    chooseCol cols sel r = Option.some c ↔ c ∈ cols ∧ sel r c = true := by
  rw [chooseCol, foldl_select_eq]
  cases hf : cols.filter (fun c => sel r c) with
  | nil =>
    simp only [List.getLast?_nil, Option.elim]
    rw [List.filter_eq_nil_iff] at hf
    constructor
    · intro h; simp at h
    · rintro ⟨hc, hs⟩
      exact absurd hs (hf c hc)
  | cons x xs =>
    cases xs with
    | cons y ys => rw [hf] at hone; simp at hone
    | nil =>
      simp only [List.getLast?_singleton, Option.elim, Option.some.injEq]
      have hx := List.mem_filter.mp (hf ▸ List.mem_cons_self x [])
      constructor
      · rintro rfl; exact ⟨hx.1, hx.2⟩
      · rintro ⟨hc, hs⟩
        have hmem : c ∈ cols.filter (fun c => sel r c) := List.mem_filter.mpr ⟨hc, hs⟩
        rw [hf] at hmem
        have hcx : c = x := by simpa using hmem
        exact hcx.symm

theorem dictSet_append (d : List (String × String)) (k v : String)
    (h : d.any (fun p => p.1 == k) = false) : dictSet d k v = d ++ [(k, v)] := by
  simp [dictSet, h]

theorem matrix_responses_aux (cols : List String) (sel : String → String → Bool) :
    ∀ (rows : List String) (acc : List (String × String)),
      (∀ r ∈ rows, acc.any (fun p => p.1 == r) = false) → rows.Nodup →
      List.foldl (fun acc r =>
        match chooseCol cols sel r with
        | Option.some c => dictSet acc r c
        | Option.none => acc) acc rows
        = acc ++ rows.filterMap (fun r => (chooseCol cols sel r).map (fun c => (r, c))) := by
  intro rows
  induction rows with
  | nil => intro acc _ _; simp
  | cons r rs ih =>
    intro acc hfresh hnd
    rw [List.foldl_cons, List.filterMap_cons]
    cases hch : chooseCol cols sel r with
    | none =>
      simp only [Option.map_none']
      exact ih acc (fun r' hr' => hfresh r' (List.mem_cons_of_mem r hr'))
        (List.Nodup.of_cons hnd)
    | some c =>
      simp only [Option.map_some']
      rw [dictSet_append acc r c (hfresh r (List.mem_cons_self r rs))]
      rw [ih (acc ++ [(r, c)]) ?fresh (List.Nodup.of_cons hnd)]
      · rw [List.append_assoc]
        rfl
      case fresh =>
        intro r' hr'
        rw [List.any_append]
        have h1 : acc.any (fun p => p.1 == r') = false :=
          hfresh r' (List.mem_cons_of_mem r hr')
        have hne : r ≠ r' := by
          intro hEq
          exact (List.nodup_cons.mp hnd).1 (hEq ▸ hr')
        simp [h1, hne]

theorem matrix_responses_eq (rows cols : List String) (sel : String → String → Bool)
    (hnd : rows.Nodup) :
    matrix_responses rows cols sel
      = rows.filterMap (fun r => (chooseCol cols sel r).map (fun c => (r, c))) := by
  rw [matrix_responses, matrix_responses_aux cols sel rows [] (by simp) hnd]
  rfl

theorem jsonEntryChars_ne_nil (p : String × String) : jsonEntryChars p ≠ [] := by
  simp [jsonEntryChars, jsonQuoteChars]

theorem joinListChars_ne_nil (sep : List Char) (e : List Char) (rest : List (List Char))
    (he : e ≠ []) : joinListChars sep (e :: rest) ≠ [] := by
  cases rest with
  | nil => simpa [joinListChars] using he
  | cons t ts => simp [joinListChars, he]

theorem json_dumps_ne (d : List (String × String)) (hd : d ≠ []) :
    json_dumps d ≠ "" ∧ json_dumps d ≠ "\x7b\x7d" := by
  cases d with
  | nil => exact absurd rfl hd
  | cons p ds =>
    constructor
    · intro h
      have hdata := congrArg String.data h
      simp [json_dumps] at hdata
    · intro h
      have hdata := congrArg String.data h
      simp only [json_dumps, List.map_cons] at hdata
      have hjoin : joinListChars [',', ' '] (jsonEntryChars p :: ds.map jsonEntryChars)
          ≠ [] := joinListChars_ne_nil _ _ _ (jsonEntryChars_ne_nil p)
      have : (lbrace :: (joinListChars [',', ' ']
          (jsonEntryChars p :: ds.map jsonEntryChars) ++ [rbrace]))
          = [lbrace, rbrace] := hdata
      rw [List.cons_eq_cons] at this
      have htail := this.2
      cases hjl : joinListChars [',', ' '] (jsonEntryChars p :: ds.map jsonEntryChars) with
      | nil => exact hjoin hjl
      | cons x xs =>
        rw [hjl, List.cons_append] at htail
        have := List.cons_eq_cons.mp htail
        have h2 := this.2
        have hlen := congrArg List.length h2
        simp at hlen

/-- C8: for non-degenerate matrix questions (non-empty row and column label
lists, distinct row labels, at most one selected column per row) the
serialized `matrix_responses` dict maps exactly the row labels with a
selection to their chosen column label, the serialized value is the empty
string precisely when no row has a selection, and the serialized value is
never the two-character string of an empty JSON object. -/
theorem c8_matrix_serialization (rows cols : List String)
    (sel : String → String → Bool)
    (hrows : rows ≠ []) (hcols : cols ≠ []) (hnd : rows.Nodup)
    (hone : ∀ r ∈ rows, (cols.filter (fun c => sel r c)).length ≤ 1) :
    (∀ r c, (r, c) ∈ matrix_responses rows cols sel ↔
        r ∈ rows ∧ c ∈ cols ∧ sel r c = true) ∧
    (serialize_matrix rows cols sel = "" ↔
        ∀ r ∈ rows, ∀ c ∈ cols, sel r c = false) ∧
    serialize_matrix rows cols sel ≠ "\x7b\x7d" := by
  have hmr := matrix_responses_eq rows cols sel hnd
  have hmem : ∀ r c, (r, c) ∈ matrix_responses rows cols sel ↔
      r ∈ rows ∧ c ∈ cols ∧ sel r c = true := by
    intro r c
    rw [hmr, List.mem_filterMap]
    constructor
    · rintro ⟨a, ha, hfa⟩
      cases hca : chooseCol cols sel a with
      | none => rw [hca] at hfa; simp at hfa
      | some c' =>
        rw [hca] at hfa
        simp only [Option.map_some', Option.some.injEq, Prod.mk.injEq] at hfa
        obtain ⟨rfl, rfl⟩ := hfa
        have := (chooseCol_iff cols sel a (hone a ha) c').mp hca
        exact ⟨ha, this.1, this.2⟩
    · rintro ⟨hr, hc, hs⟩
      refine ⟨r, hr, ?_⟩
      rw [(chooseCol_iff cols sel r (hone r hr) c).mpr ⟨hc, hs⟩]
      rfl
  have hempty : matrix_responses rows cols sel = [] ↔
      ∀ r ∈ rows, ∀ c ∈ cols, sel r c = false := by
    rw [hmr, List.filterMap_eq_nil_iff]
    constructor
    · intro h r hr
      have := h r hr
      cases hca : chooseCol cols sel r with
      | none => exact (chooseCol_eq_none_iff cols sel r).mp hca
      | some c => rw [hca] at this; simp at this
    · intro h r hr
      rw [(chooseCol_eq_none_iff cols sel r).mpr (h r hr)]
      rfl
  have hre : rows.isEmpty = false := by simpa using hrows
  have hce : cols.isEmpty = false := by simpa using hcols
  refine ⟨hmem, ?_, ?_⟩
  · rw [serialize_matrix, hre, hce]
    simp only [Bool.or_self, Bool.false_eq_true, if_false]
    by_cases hmre : (matrix_responses rows cols sel).isEmpty
    · rw [if_pos hmre]
      simp only [true_iff]
      exact hempty.mp (List.isEmpty_iff.mp hmre)
    · rw [if_neg hmre]
      have hne : matrix_responses rows cols sel ≠ [] := by
        intro h
        exact hmre (by simp [h])
      constructor
      · intro h
        exact absurd h (json_dumps_ne _ hne).1
      · intro h
        exact absurd (hempty.mpr h) hne
  · rw [serialize_matrix, hre, hce]
    simp only [Bool.or_self, Bool.false_eq_true, if_false]
    by_cases hmre : (matrix_responses rows cols sel).isEmpty
    · rw [if_pos hmre]
      intro h
      have := congrArg String.data h
      simp at this
    · rw [if_neg hmre]
      have hne : matrix_responses rows cols sel ≠ [] := by
        intro h
        exact hmre (by simp [h])
      exact (json_dumps_ne _ hne).2

/-- Concrete matrix instance: two rows, two columns, one selected cell. -/
def c8Rows : List String := ["Quality", "Speed"]

/-- Columns for the concrete matrix instance. -/
def c8Cols : List String := ["Low", "High"]

/-- Selection for the concrete matrix instance: row `Quality` has chosen
column `High`; row `Speed` has no selection. -/
def c8Sel : String → String → Bool := fun r c => r == "Quality" && c == "High"

/-- Witness for C8 at a concrete matrix instance. -/
theorem c8_matrix_serialization_witness :
    (c8Rows ≠ [] ∧ c8Cols ≠ [] ∧ c8Rows.Nodup ∧
      ∀ r ∈ c8Rows, (c8Cols.filter (fun c => c8Sel r c)).length ≤ 1) ∧
    ((∀ r c, (r, c) ∈ matrix_responses c8Rows c8Cols c8Sel ↔
        r ∈ c8Rows ∧ c ∈ c8Cols ∧ c8Sel r c = true) ∧
      (serialize_matrix c8Rows c8Cols c8Sel = "" ↔
        ∀ r ∈ c8Rows, ∀ c ∈ c8Cols, c8Sel r c = false) ∧
      serialize_matrix c8Rows c8Cols c8Sel ≠ "\x7b\x7d") :=
  ⟨⟨by decide, by decide, by decide, by decide⟩,
    c8_matrix_serialization c8Rows c8Cols c8Sel (by decide) (by decide) (by decide)
      (by decide)⟩

/-! ## Relational state

The tables touched by `submit_survey_responses`, with surrogate-id counters
standing for the serial columns.  Partner and submission ids are allocated
in insertion order; responses live in `ResponseRow` above. -/

structure Customer where
  customer_id : String
  customer_company : String
deriving DecidableEq

structure Partner where
  id : Nat
  partner_name : String
  partner_company : String
deriving DecidableEq

structure Template where
  id : Nat
  template_name : String
  questions : List Question
deriving DecidableEq

structure Submission where
  id : Nat
  customer_id : String
  partner_id : Nat
  template_id : Nat
  is_update : Bool
  previous_submission_id : Option Nat
deriving DecidableEq

structure DB where
  customers : List Customer
  partners : List Partner
  templates : List Template
  submissions : List Submission
  responses : List ResponseRow
  nextPartnerId : Nat
  nextSubmissionId : Nat
deriving DecidableEq

/-- `INSERT INTO customers ... ON CONFLICT (customer_id) DO UPDATE SET
customer_company = ...` (`app.py` lines 210-215 / `app_v1.py` 267-271). -/
def upsertCustomer (db : DB) (cid ccompany : String) : DB :=
  if db.customers.any (fun c => c.customer_id == cid) then
    { db with customers := db.customers.map (fun c =>
        if c.customer_id == cid then { c with customer_company := ccompany } else c) }
  else
    { db with customers :=
        db.customers ++ [{ customer_id := cid, customer_company := ccompany }] }

/-- `INSERT INTO partners ... ON CONFLICT (partner_name, partner_company)
DO UPDATE SET partner_name = ... RETURNING id` (`app.py` lines 218-224):
on conflict the name is overwritten with the same value, so the row is
unchanged and the existing id is returned. -/
def upsertPartner (db : DB) (pname pcompany : String) : DB × Nat :=
  match db.partners.find?
      (fun p => p.partner_name == pname && p.partner_company == pcompany) with
  | Option.some p => (db, p.id)
  | Option.none =>
    ({ db with
        partners := db.partners ++
          [{ id := db.nextPartnerId, partner_name := pname, partner_company := pcompany }],
        nextPartnerId := db.nextPartnerId + 1 },
      db.nextPartnerId)

/-- `SELECT id, questions FROM templates WHERE template_name = ...`. -/
def lookupTemplate (db : DB) (tname : String) : Option Template :=
  db.templates.find? (fun t => t.template_name == tname)

/-- The previous-submission query of `submit_survey_responses`
(`app.py` lines 239-247, `app_v1.py` lines 334-349): the greatest
submission id over submissions joined to a partner row matching both the
partner person name and the partner company, for the given customer and
template.  (`MAX` over no rows is `NULL`, modelled by `none`.) -/
def prev_submission_id (db : DB) (cid pname pcompany : String) (tid : Nat) : Option Nat :=
  ((db.submissions.filter (fun s => s.customer_id == cid &&
      db.partners.any (fun p => p.id == s.partner_id &&
        p.partner_name == pname && p.partner_company == pcompany) &&
      s.template_id == tid)).map (fun s => s.id)).max?

/-- The previous-submission resolution exactly as the claim words it:
latest submission id matching the (customer, partner-company, template)
triple, with the partner person name not participating. -/
def prev_submission_id_claimed (db : DB) (cid pcompany : String) (tid : Nat) : Option Nat :=
  ((db.submissions.filter (fun s => s.customer_id == cid &&
      db.partners.any (fun p => p.id == s.partner_id &&
        p.partner_company == pcompany) &&
      s.template_id == tid)).map (fun s => s.id)).max?

namespace App

/-- `submit_survey_responses` of `app.py` (lines 199-282): one transaction
on a single cursor; customer upsert, partner upsert, template resolution,
previous-submission resolution when updating, submission insert, and the
response-insert loop; `conn.commit()` at the end, `conn.rollback()` on any
exception (so a failed run returns the original state). -/
def submit_survey_responses (db : DB)
    (customer_id customer_company partner_name partner_company template_name : String)
    (responses : List (String × PyValue)) (is_update : Bool) : DB × Option Nat :=
  let db1 := upsertCustomer db customer_id customer_company
  let pr := upsertPartner db1 partner_name partner_company
  let db2 := pr.1
  let partner_id := pr.2
  match lookupTemplate db2 template_name with
  | Option.none => (db, Option.none)
  | Option.some tmpl =>
    let previous : Option Nat :=
      if is_update then
        prev_submission_id db2 customer_id partner_name partner_company tmpl.id
      else Option.none
    let sid := db2.nextSubmissionId
    let db3 := { db2 with
      submissions := db2.submissions ++
        [({ id := sid, customer_id := customer_id, partner_id := partner_id,
            template_id := tmpl.id, is_update := is_update,
            previous_submission_id := previous } : Submission)],
      nextSubmissionId := sid + 1 }
    let db4 := { db3 with
      responses := db3.responses ++ responses_to_insert tmpl.questions sid responses }
    (db4, Option.some sid)

end App

/-- State with one prior submission for customer `C1`, template `T`, made
by partner person `Alice` of company `Acme`. -/
def c1Db : DB :=
  { customers := [{ customer_id := "C1", customer_company := "CustCo" }],
    partners := [{ id := 1, partner_name := "Alice", partner_company := "Acme" }],
    templates := [{ id := 1, template_name := "T", questions := [] }],
    submissions := [{ id := 1, customer_id := "C1", partner_id := 1, template_id := 1,
                      is_update := false, previous_submission_id := Option.none }],
    responses := [],
    nextPartnerId := 2,
    nextSubmissionId := 2 }

/-- C1 counterexample: partner person `Bob` of the same company `Acme`
submits an update for the same (customer, partner-company, template)
triple.  The claim says the stored previous-submission reference is the
latest triple-matching id, here `1`; but the source's previous-submission
query also matches on the partner person name, finds no submission by
`Bob`, and stores `NULL`. -/
theorem c1_partner_name_participates :
    prev_submission_id_claimed c1Db "C1" "Acme" 1 = Option.some 1 ∧
    (App.submit_survey_responses c1Db "C1" "CustCo" "Bob" "Acme" "T" [] true).2
      = Option.some 2 ∧
    ((App.submit_survey_responses c1Db "C1" "CustCo" "Bob" "Acme" "T" [] true).1.submissions.getLast?).map
        (fun s => s.previous_submission_id)
      = Option.some Option.none := by
  refine ⟨rfl, rfl, by decide⟩

theorem upsertCustomer_partners (db : DB) (cid cc : String) :
    (upsertCustomer db cid cc).partners = db.partners := by
  rw [upsertCustomer]; split <;> rfl

theorem upsertCustomer_templates (db : DB) (cid cc : String) :
    (upsertCustomer db cid cc).templates = db.templates := by
  rw [upsertCustomer]; split <;> rfl

theorem upsertCustomer_submissions (db : DB) (cid cc : String) :
    (upsertCustomer db cid cc).submissions = db.submissions := by
  rw [upsertCustomer]; split <;> rfl

theorem upsertCustomer_nextPartnerId (db : DB) (cid cc : String) :
    (upsertCustomer db cid cc).nextPartnerId = db.nextPartnerId := by
  rw [upsertCustomer]; split <;> rfl

theorem upsertPartner_templates (db : DB) (pn pc : String) :
    ((upsertPartner db pn pc).1).templates = db.templates := by
  rw [upsertPartner]
  cases db.partners.find? (fun p => p.partner_name == pn && p.partner_company == pc) <;> rfl

theorem upsertPartner_submissions (db : DB) (pn pc : String) :
    ((upsertPartner db pn pc).1).submissions = db.submissions := by
  rw [upsertPartner]
  cases db.partners.find? (fun p => p.partner_name == pn && p.partner_company == pc) <;> rfl

theorem upsertPartner_partners_or (db : DB) (pn pc : String) :
    ((upsertPartner db pn pc).1).partners = db.partners ∨
    ((upsertPartner db pn pc).1).partners = db.partners ++
      [{ id := db.nextPartnerId, partner_name := pn, partner_company := pc }] := by
  rw [upsertPartner]
  cases db.partners.find? (fun p => p.partner_name == pn && p.partner_company == pc) with
  | none => right; rfl
  | some p => left; rfl

/-- The customer and partner upserts do not disturb the previous-submission
query: the submissions table is untouched, and a freshly inserted partner
row has an id no existing submission references. -/
theorem prev_submission_id_upserts (db : DB) (cid ccompany pn pc : String) (tid : Nat)
    (hwf : ∀ s ∈ db.submissions, s.partner_id < db.nextPartnerId) :
    prev_submission_id ((upsertPartner (upsertCustomer db cid ccompany) pn pc).1)
        cid pn pc tid
      = prev_submission_id db cid pn pc tid := by
  have hsub : ((upsertPartner (upsertCustomer db cid ccompany) pn pc).1).submissions
      = db.submissions := by
    rw [upsertPartner_submissions, upsertCustomer_submissions]
  have hnp : (upsertCustomer db cid ccompany).nextPartnerId = db.nextPartnerId :=
    upsertCustomer_nextPartnerId db cid ccompany
  have hpart1 : (upsertCustomer db cid ccompany).partners = db.partners :=
    upsertCustomer_partners db cid ccompany
  rcases upsertPartner_partners_or (upsertCustomer db cid ccompany) pn pc with hp | hp
  · rw [prev_submission_id, prev_submission_id, hsub]
    apply congrArg
    apply congrArg
    apply List.filter_congr
    intro s hs
    rw [hp, hpart1]
  · rw [prev_submission_id, prev_submission_id, hsub]
    apply congrArg
    apply congrArg
    apply List.filter_congr
    intro s hs
    rw [hp, hpart1, hnp, List.any_append]
    have hlt := hwf s hs
    have hid : (db.nextPartnerId == s.partner_id) = false := by
      simp only [beq_eq_false_iff_ne, ne_eq]
      omega
    simp [hid]

/-- C1 (amended): on a well-formed state (no submission references a
partner id at or above the allocation counter), a successful submit stores,
on the newly inserted submission, a previous-submission reference equal to
the greatest id among prior submissions matching the (customer, partner
person name, partner company, template) quadruple when `is_update` is true
— the partner person name does participate in the match — and stores no
reference when `is_update` is false. -/
theorem c1_prev_reference (db : DB)
    (cid ccompany pname pcompany tname : String)
    (responses : List (String × PyValue)) (is_update : Bool) (tmpl : Template)
    (htmpl : lookupTemplate db tname = Option.some tmpl)
    (hwf : ∀ s ∈ db.submissions, s.partner_id < db.nextPartnerId) :
    ((App.submit_survey_responses db cid ccompany pname pcompany tname responses
        is_update).1.submissions.getLast?).map (fun s => s.previous_submission_id)
      = Option.some (if is_update then
          prev_submission_id db cid pname pcompany tmpl.id
        else Option.none) := by
  have htmpl2 : lookupTemplate
      ((upsertPartner (upsertCustomer db cid ccompany) pname pcompany).1) tname
      = Option.some tmpl := by
    rw [lookupTemplate, upsertPartner_templates, upsertCustomer_templates]
    rw [lookupTemplate] at htmpl
    exact htmpl
  simp only [App.submit_survey_responses]
  rw [htmpl2]
  simp only [List.getLast?_concat, Option.map_some']
  rw [prev_submission_id_upserts db cid ccompany pname pcompany tmpl.id hwf]

/-- Witness for C1 at a concrete state: partner `Alice` of `Acme` updates
her own earlier submission, and the stored reference is its id. -/
theorem c1_prev_reference_witness :
    (lookupTemplate c1Db "T"
        = Option.some { id := 1, template_name := "T", questions := [] } ∧
      ∀ s ∈ c1Db.submissions, s.partner_id < c1Db.nextPartnerId) ∧
    ((App.submit_survey_responses c1Db "C1" "CustCo" "Alice" "Acme" "T" [] true).1.submissions.getLast?).map
        (fun s => s.previous_submission_id)
      = Option.some (if true then prev_submission_id c1Db "C1" "Alice" "Acme" 1
          else Option.none) :=
  ⟨⟨by decide, by decide⟩,
    c1_prev_reference c1Db "C1" "CustCo" "Alice" "Acme" "T" [] true
      { id := 1, template_name := "T", questions := [] } (by decide) (by decide)⟩

namespace AppV1

/-- The response-insert loop of `app_v1.py` (lines 392-409): each row is a
separate `postgres_insert` call, committed on its own; a failing call
raises after the earlier rows are already committed.  `failures k` says
whether the k-th write statement of the submit raises. -/
def insert_response_rows (failures : Nat → Bool) (sid : Nat) :
    Nat → DB → List ResponseRow → DB × Option Nat
  | _, db, [] => (db, Option.some sid)
  | k, db, row :: rest =>
    if failures k then (db, Option.none)
    else insert_response_rows failures sid (k + 1)
      { db with responses := db.responses ++ [row] } rest

/-- `submit_survey_responses` of `app_v1.py` (lines 261-423): the same
steps as the `app.py` variant, but each write goes through the
`postgres_insert` helper as its own autocommitted statement and there is no
transaction or rollback — the `except` branch only reports the error.
Write statements are numbered 0 (customer upsert), 1 (partner upsert),
2 (submission insert), 3.. (response inserts); reads are modelled as
succeeding.  The inserted submission is fetched back as the greatest id
for the (partner, template) pair and its customer is re-checked in Python
(lines 370-390). -/
def submit_survey_responses (failures : Nat → Bool) (db : DB)
    (customer_id customer_company partner_name partner_company template_name : String)
    (responses : List (String × PyValue)) (is_update : Bool) : DB × Option Nat :=
  if failures 0 then (db, Option.none) else
  let db1 := upsertCustomer db customer_id customer_company
  if failures 1 then (db1, Option.none) else
  let db2 := (upsertPartner db1 partner_name partner_company).1
  match (db2.partners.find? (fun p =>
      p.partner_name == partner_name && p.partner_company == partner_company)).map
      (fun p => p.id) with
  | Option.none => (db2, Option.none)
  | Option.some partner_id =>
    match lookupTemplate db2 template_name with
    | Option.none => (db2, Option.none)
    | Option.some tmpl =>
      let previous : Option Nat :=
        if is_update then
          prev_submission_id db2 customer_id partner_name partner_company tmpl.id
        else Option.none
      if failures 2 then (db2, Option.none) else
      let sid := db2.nextSubmissionId
      let db3 := { db2 with
        submissions := db2.submissions ++
          [({ id := sid, customer_id := customer_id, partner_id := partner_id,
              template_id := tmpl.id, is_update := is_update,
              previous_submission_id := previous } : Submission)],
        nextSubmissionId := sid + 1 }
      let fetched := (db3.submissions.filter (fun s =>
          s.partner_id == partner_id && s.template_id == tmpl.id)).foldl
        (fun acc s => match acc with
          | Option.none => Option.some s
          | Option.some t => if t.id < s.id then Option.some s else Option.some t)
        Option.none
      match fetched with
      | Option.none => (db3, Option.none)
      | Option.some srow =>
        if srow.customer_id ≠ customer_id then (db3, Option.none)
        else insert_response_rows failures srow.id 3 db3
          (responses_to_insert tmpl.questions srow.id responses)

end AppV1

/-- State for the C2 failing input: one template, no customers or partners
or submissions yet. -/
def c2Db : DB :=
  { customers := [], partners := [],
    templates := [{ id := 1, template_name := "T", questions := [] }],
    submissions := [], responses := [],
    nextPartnerId := 1, nextSubmissionId := 1 }

/-- Failure pattern for the C2 failing input: the third write statement of
the submit — the `submissions` insert — raises; the earlier customer and
partner upserts succeed. -/
def c2Failures : Nat → Bool := fun k => k == 2

/-- C2: in the `app_v1.py` variant, when the submissions insert fails after
the customer and partner upserts succeeded, the submit reports an error but
the customer and partner rows written by the earlier steps remain in the
state — there is no rollback, contradicting the claim that no row written
by an earlier step of the invocation persists. -/
theorem c2_partial_rows_persist :
    (AppV1.submit_survey_responses c2Failures c2Db "C1" "CustCo" "Bob" "Acme" "T"
        [("q1", PyValue.str "x")] false).2 = Option.none ∧
    (AppV1.submit_survey_responses c2Failures c2Db "C1" "CustCo" "Bob" "Acme" "T"
        [("q1", PyValue.str "x")] false).1.customers
      = [{ customer_id := "C1", customer_company := "CustCo" }] ∧
    (AppV1.submit_survey_responses c2Failures c2Db "C1" "CustCo" "Bob" "Acme" "T"
        [("q1", PyValue.str "x")] false).1.partners
      = [{ id := 1, partner_name := "Bob", partner_company := "Acme" }] ∧
    (AppV1.submit_survey_responses c2Failures c2Db "C1" "CustCo" "Bob" "Acme" "T"
        [("q1", PyValue.str "x")] false).1.submissions = [] := by
  refine ⟨by decide, by decide, by decide, by decide⟩

/-! ## Export transform

`export_all_submissions` (`app.py` lines 297-348 / `app_v1.py` 441-497).
The SQL query LEFT JOINs responses onto submissions (with customer,
partner and template joined in), so a submission with no responses
contributes exactly one row whose response fields are NULL.  The Summary
sheet is `df.groupby([the eight submission columns]).size()`, named
`response_count` — it counts joined rows, including the NULL-response
row. -/

structure ExportSubmission where
  id : Nat
  submission_uuid : String
  submission_date : Nat
  customer_id : String
  customer_company : String
  partner_name : String
  partner_company : String
  survey_name : String
  is_update : Bool
deriving DecidableEq

/-- The eight grouping columns of the Summary sheet. -/
structure SummaryKey where
  submission_uuid : String
  submission_date : Nat
  customer_id : String
  customer_company : String
  partner_name : String
  partner_company : String
  survey_name : String
  is_update : Bool
deriving DecidableEq

def exportKey (s : ExportSubmission) : SummaryKey :=
  { submission_uuid := s.submission_uuid, submission_date := s.submission_date,
    customer_id := s.customer_id, customer_company := s.customer_company,
    partner_name := s.partner_name, partner_company := s.partner_company,
    survey_name := s.survey_name, is_update := s.is_update }

/-- The joined rows one submission contributes under
`LEFT JOIN responses r ON s.id = r.submission_id`: one NULL-response row
when it has no responses, else one row per response. -/
def export_rows_for (resps : List ResponseRow) (s : ExportSubmission) :
    List (SummaryKey × Option ResponseRow) :=
  let rs := resps.filter (fun r => r.submission_id == s.id)
  if rs.isEmpty then [(exportKey s, Option.none)]
  else rs.map (fun r => (exportKey s, Option.some r))

/-- The full joined result set of the export query (row order is
irrelevant to the group sizes). -/
def export_joined_rows (subs : List ExportSubmission) (resps : List ResponseRow) :
    List (SummaryKey × Option ResponseRow) :=
  subs.flatMap (export_rows_for resps)

/-- The `response_count` value the Summary sheet shows for a group key:
`groupby(...).size()` over the joined rows. -/
def response_count (subs : List ExportSubmission) (resps : List ResponseRow)
    (k : SummaryKey) : Nat :=
  ((export_joined_rows subs resps).filter (fun p => p.1 == k)).length

theorem export_rows_for_key (resps : List ResponseRow) (s : ExportSubmission) :
    ∀ x ∈ export_rows_for resps s, x.1 = exportKey s := by
  intro x hx
  rw [export_rows_for] at hx
  split at hx
  · simp only [List.mem_singleton] at hx
    rw [hx]
  · rcases List.mem_map.mp hx with ⟨r, _, rfl⟩
    rfl

theorem filter_rows_for_ne (resps : List ResponseRow) (s : ExportSubmission)
    (k : SummaryKey) (hne : exportKey s ≠ k) :
    (export_rows_for resps s).filter (fun p => p.1 == k) = [] := by
  rw [List.filter_eq_nil_iff]
  intro x hx
  rw [export_rows_for_key resps s x hx]
  simp [hne]

theorem filter_rows_for_eq (resps : List ResponseRow) (s : ExportSubmission) :
    (export_rows_for resps s).filter (fun p => p.1 == exportKey s)
      = export_rows_for resps s := by
  rw [List.filter_eq_self]
  intro x hx
  rw [export_rows_for_key resps s x hx]
  simp

theorem filter_joined_none (subs : List ExportSubmission) (resps : List ResponseRow)
    (k : SummaryKey) (hall : ∀ t ∈ subs, exportKey t ≠ k) :
    (export_joined_rows subs resps).filter (fun p => p.1 == k) = [] := by
  induction subs with
  | nil => rfl
  | cons t ts ih =>
    rw [export_joined_rows, List.flatMap_cons, List.filter_append]
    rw [filter_rows_for_ne resps t k (hall t (List.mem_cons_self t ts))]
    rw [List.nil_append]
    exact ih (fun u hu => hall u (List.mem_cons_of_mem t hu))

theorem filter_joined_eq (subs : List ExportSubmission) (resps : List ResponseRow)
    (s : ExportSubmission) (hs : s ∈ subs) (hnd : (subs.map exportKey).Nodup) :
    (export_joined_rows subs resps).filter (fun p => p.1 == exportKey s)
      = export_rows_for resps s := by
  induction subs with
  | nil => simp at hs
  | cons t ts ih =>
    rw [export_joined_rows, List.flatMap_cons, List.filter_append]
    rw [List.map_cons, List.nodup_cons] at hnd
    rcases List.mem_cons.mp hs with rfl | hmem
    · rw [filter_rows_for_eq resps s]
      have hnone : List.filter (fun p => p.1 == exportKey s)
          (ts.flatMap (export_rows_for resps)) = [] :=
        filter_joined_none ts resps (exportKey s)
          (fun u hu hEq => hnd.1 (hEq ▸ List.mem_map_of_mem exportKey hu))
      rw [hnone, List.append_nil]
    · have hne : exportKey t ≠ exportKey s := by
        intro hEq
        exact hnd.1 (hEq ▸ List.mem_map_of_mem exportKey hmem)
      rw [filter_rows_for_ne resps t (exportKey s) hne, List.nil_append]
      exact ih hmem hnd.2

/-- C10: in the export transform, a submission with zero response rows
still contributes exactly one joined row (with null response fields), its
Summary `response_count` is `1` (the null-response row is counted), the
Summary `response_count` is never `0`, and it equals the true number of
responses exactly for submissions with at least one response. -/
theorem c10_summary_response_count (subs : List ExportSubmission)
    (resps : List ResponseRow) (s : ExportSubmission) (n : Nat)
    (hs : s ∈ subs) (hnd : (subs.map exportKey).Nodup)
    (hn : (resps.filter (fun r => r.submission_id == s.id)).length = n) :
    (n = 0 → (export_joined_rows subs resps).filter (fun p => p.1 == exportKey s)
        = [(exportKey s, Option.none)]) ∧
    response_count subs resps (exportKey s) = max 1 n ∧
    1 ≤ response_count subs resps (exportKey s) ∧
    (response_count subs resps (exportKey s) = n ↔ 1 ≤ n) := by
  have hfj := filter_joined_eq subs resps s hs hnd
  have hcount : response_count subs resps (exportKey s)
      = (export_rows_for resps s).length := by
    rw [response_count, hfj]
  by_cases hz : (resps.filter (fun r => r.submission_id == s.id)).isEmpty
  · have hn0 : n = 0 := by
      rw [← hn, List.isEmpty_iff.mp hz]
      rfl
    have hrows : export_rows_for resps s = [(exportKey s, Option.none)] := by
      rw [export_rows_for]
      simp [hz]
    refine ⟨fun _ => by rw [hfj, hrows], ?_, ?_, ?_⟩
    · rw [hcount, hrows, hn0]
      rfl
    · rw [hcount, hrows]
      simp
    · rw [hcount, hrows, hn0]
      simp
  · have hpos : 1 ≤ n := by
      rcases Nat.eq_zero_or_pos n with h0 | h1
      · exfalso
        apply hz
        rw [List.isEmpty_iff, ← List.length_eq_zero]
        omega
      · exact h1
    have hrows : export_rows_for resps s
        = (resps.filter (fun r => r.submission_id == s.id)).map
            (fun r => (exportKey s, Option.some r)) := by
      rw [export_rows_for]
      simp [hz]
    have hlen : (export_rows_for resps s).length = n := by
      rw [hrows, List.length_map, hn]
    refine ⟨fun h0 => absurd h0 (by omega), ?_, ?_, ?_⟩
    · rw [hcount, hlen]
      omega
    · rw [hcount, hlen]
      exact hpos
    · rw [hcount, hlen]
      simp [hpos]

/-- A single submission with no responses, for the C10 witness. -/
def c10Subs : List ExportSubmission :=
  [{ id := 1, submission_uuid := "u1", submission_date := 10, customer_id := "C1",
     customer_company := "CustCo", partner_name := "Alice", partner_company := "Acme",
     survey_name := "T", is_update := false }]

/-- Witness for C10: a zero-response submission appears once with a null
response field and its Summary `response_count` is 1, not 0. -/
theorem c10_summary_response_count_witness :
    ((c10Subs.get ⟨0, by decide⟩) ∈ c10Subs ∧ (c10Subs.map exportKey).Nodup ∧
      (([] : List ResponseRow).filter
          (fun r => r.submission_id == (c10Subs.get ⟨0, by decide⟩).id)).length = 0) ∧
    ((0 = 0 → (export_joined_rows c10Subs []).filter
          (fun p => p.1 == exportKey (c10Subs.get ⟨0, by decide⟩))
        = [(exportKey (c10Subs.get ⟨0, by decide⟩), Option.none)]) ∧
      response_count c10Subs [] (exportKey (c10Subs.get ⟨0, by decide⟩)) = max 1 0 ∧
      1 ≤ response_count c10Subs [] (exportKey (c10Subs.get ⟨0, by decide⟩)) ∧
      (response_count c10Subs [] (exportKey (c10Subs.get ⟨0, by decide⟩)) = 0 ↔ 1 ≤ 0)) :=
  ⟨⟨by decide, by decide, by decide⟩,
    c10_summary_response_count c10Subs [] (c10Subs.get ⟨0, by decide⟩) 0
      (by decide) (by decide) (by decide)⟩

/-- Witness for C7 at a concrete two-option selection. -/
theorem c7_round_trip_witness :
    (∀ s ∈ ["Alpha", "Beta"], s ≠ "" ∧ s.toList.contains '|' = false) ∧
    deserialize_multi_select (serialize_multi_select ["Alpha", "Beta"])
      = ["Alpha", "Beta"] :=
  ⟨by decide, c7_round_trip ["Alpha", "Beta"] (by decide)⟩
